import Mathlib

/-!
Shallow embedding of `astrbot_plugin_welcome` (src/main.py): a chat-bot
plugin holding an in-memory mapping from group id to welcome text
(`self.group_welcomes`, a Python dict with string keys and values),
persisted as a JSON file, plus a join-notification handler and two
admin commands.

Modelling conventions:
- The Python dict is an association list with unique keys; `d[k] = v`
  replaces in place when the key is present, else appends (Python dict
  insertion-order semantics).
- JSON values that `json.load` can produce are the inductive `PyJson`;
  the backing file is a `FileState` (absent, readable content, or a
  read/parse failure that raises inside the `try` block).
- `event.get_group_id()` is modelled as a `String` where `""` stands
  for any falsy value (`None` or the empty string): the code only tests
  it with `if not group_id`.
- Python `str.strip()` is modelled by `pyStrip`, removing surrounding
  characters from Python's whitespace set (`Py_UNICODE_ISSPACE`): the
  ASCII and Unicode space, separator and control-separator characters.
- `async` generators that `yield` at most one result are pure functions
  returning their reply; handlers that never mutate state return the
  state unchanged so that frame properties are explicit.
-/

/-- The values `json.load` can return (and `json.dump` can write). -/
inductive PyJson where
  | jobj (entries : List (String × PyJson))
  | jarr (elems : List PyJson)
  | jstr (s : String)
  | jint (n : Int)
  | jbool (b : Bool)
  | jnull

/-- State of the backing file `group_welcomes.json`: missing, present with
parsed JSON content, or present but raising on read/parse. -/
inductive FileState where
  | absent
  | content (j : PyJson)
  | unreadable

/-- The plugin's store state: `self.group_welcomes` (a string-to-string
dict in every state the plugin's own operations produce) and
`self.default_message` (from config, default `"欢迎新人~"`). -/
structure Store where
  group_welcomes : List (String × String)
  default_message : String

/-- Python `d.get(k)` on a string-keyed dict: first (unique) match. -/
def dictGet : List (String × String) → String → Option String
  | [], _ => none
  | p :: rest, k => if p.1 == k then some p.2 else dictGet rest k

/-- Python `k in d` (used only to state Python dict semantics). -/
def dictMember : List (String × String) → String → Bool
  | [], _ => false
  | p :: rest, k => p.1 == k || dictMember rest k

/-- Python `d[k] = v`: replace in place if `k` is a key, else append. -/
def dictInsert (d : List (String × String)) (k v : String) :
    List (String × String) :=
  if dictMember d k then
    d.map (fun p => if p.1 == k then (k, v) else p)
  else d ++ [(k, v)]

/-- `json.dump` of the string-to-string dict: the JSON object with the
same entries. -/
def toJson (d : List (String × String)) : PyJson :=
  PyJson.jobj (d.map (fun p => (p.1, PyJson.jstr p.2)))

/-- Decode a JSON object's entries as string-to-string pairs; `none` if
some value is not a string. -/
def fromJsonEntries : List (String × PyJson) → Option (List (String × String))
  | [] => some []
  | (k, PyJson.jstr v) :: rest =>
      (fromJsonEntries rest).map (fun r => (k, v) :: r)
  | _ => none

/-- Decode a `PyJson` value as a string-to-string mapping; `none` when the
value is not an object of string values. -/
def fromJson : PyJson → Option (List (String × String))
  | PyJson.jobj es => fromJsonEntries es
  | _ => none

/-- `_load_group_welcomes` (src/main.py:49-60): if the file exists,
`self.group_welcomes = json.load(f)` assigns whatever JSON the file
holds; if the file is absent the mapping becomes `{}`; if reading or
parsing raises, the `except` block logs and resets the mapping to `{}`.
The function is total: no exception escapes it. -/
def _load_group_welcomes : FileState → PyJson
  | FileState.absent => PyJson.jobj []
  | FileState.content j => j
  | FileState.unreadable => PyJson.jobj []

/-- `_save_group_welcomes` (src/main.py:62-69): writes the whole mapping
as JSON; any I/O failure is caught and logged, leaving the previous file
state (`writeOk` says whether the write succeeded). Total: never raises. -/
def _save_group_welcomes (d : List (String × String)) (writeOk : Bool)
    (fs : FileState) : FileState :=
  if writeOk then FileState.content (toJson d) else fs

/-- `self.group_welcomes.get(group_id, self.default_message)`
(src/main.py:93 and 154): the entry if present, else the default. -/
def get_welcome (s : Store) (group_id : String) : String :=
  (dictGet s.group_welcomes group_id).getD s.default_message

/-- Outbound message components (`Comp.At`, `Comp.Plain` in the source). -/
inductive Comp where
  | At (qq : Int)
  | Plain (text : String)

/-- Result of `int(raw_message.get("user_id", 0))`: the key may be absent
(the default `0` is converted), present and convertible, or present but
such that `int()` raises (e.g. a non-numeric string). -/
inductive UserIdField where
  | absent
  | malformed
  | val (n : Int)

/-- The raw event payload as the handler reads it.  `post_type` and
`notice_type` are `none` when the key is absent or its value is not the
string the code compares against (both compare unequal to the literal);
`group_id` is `none` when the key is absent (the code then applies
`str` to the default `""`), otherwise the `str()` of the value (total,
never raises). -/
structure RawMessage where
  post_type : Option String
  notice_type : Option String
  group_id : Option String
  user_id : UserIdField

/-- `handle_group_increase` (src/main.py:71-105).  `msg = none` models a
missing/falsy/non-dict `raw_message` (early `return`).  The whole body is
inside `try/except`, so an `int()` failure is logged and dropped.  The
handler never mutates the store or the file; they are returned unchanged
to make that explicit.  The third component is the single yielded chain,
or `none` when nothing is yielded. -/
def handle_group_increase (s : Store) (fs : FileState)
    (msg : Option RawMessage) : Store × FileState × Option (List Comp) :=
  match msg with
  | none => (s, fs, none)
  | some m =>
    if m.post_type = some "notice" ∧ m.notice_type = some "group_increase" then
      let group_id := m.group_id.getD ""
      match m.user_id with
      | UserIdField.malformed => (s, fs, none)
      | UserIdField.absent => (s, fs, none)
      | UserIdField.val n =>
        if group_id = "" ∨ n = 0 then (s, fs, none)
        else (s, fs,
          some [Comp.At n, Comp.Plain (" " ++ get_welcome s group_id)])
    else (s, fs, none)

/-- Whether a payload matches the join shape the handler filters for:
a notice of subtype group_increase with a non-empty group id (after the
`str` conversion with default `""`) and a non-zero, well-formed user id. -/
def joinShape : Option RawMessage → Bool
  | none => false
  | some m =>
    m.post_type == some "notice" && m.notice_type == some "group_increase" &&
    !(m.group_id.getD "" == "") &&
    (match m.user_id with
     | UserIdField.val n => !(n == 0)
     | _ => false)

/-- Python's whitespace test (CPython `Py_UNICODE_ISSPACE`): the
characters `str.strip()` removes — tab, LF, VT, FF, CR, FS/GS/RS/US,
space, NEL, NBSP, Ogham space mark, the U+2000-200A spaces, line and
paragraph separators, narrow NBSP, medium mathematical space and the
ideographic space U+3000. -/
def pyIsSpace (c : Char) : Bool :=
  [0x09, 0x0A, 0x0B, 0x0C, 0x0D, 0x1C, 0x1D, 0x1E, 0x1F, 0x20, 0x85,
   0xA0, 0x1680, 0x2000, 0x2001, 0x2002, 0x2003, 0x2004, 0x2005, 0x2006,
   0x2007, 0x2008, 0x2009, 0x200A, 0x2028, 0x2029, 0x202F, 0x205F,
   0x3000].contains c.toNat

/-- Python `message.strip()`: remove leading and trailing whitespace. -/
def pyStrip (s : String) : String :=
  ⟨((s.data.dropWhile pyIsSpace).reverse.dropWhile pyIsSpace).reverse⟩

/-- The command invocation context: `event.get_group_id()` (with `""`
for any falsy value) and `event.role`. -/
structure CmdEvent where
  group_id : String
  role : String

/-- `set_welcome` (src/main.py:107-136): rejects outside group chats,
then non-admins, then blank (after strip) text; otherwise stores the raw
text, saves synchronously (failures swallowed inside
`_save_group_welcomes`), and confirms.  Returns the new store, the new
file state, and the single plain-text reply. -/
def set_welcome (s : Store) (fs : FileState) (writeOk : Bool)
    (ev : CmdEvent) (message : String) : Store × FileState × String :=
  if ev.group_id = "" then (s, fs, "此命令仅在群聊中可用")
  else if ev.role ≠ "admin" then (s, fs, "抱歉，你的权限不足")
  else if pyStrip message = "" then (s, fs, "欢迎语不能为空")
  else
    let s' : Store :=
      ⟨dictInsert s.group_welcomes ev.group_id message, s.default_message⟩
    (s', _save_group_welcomes s'.group_welcomes writeOk fs,
     "已设置本群欢迎语:\n" ++ message)

/-- `view_welcome` (src/main.py:138-159): same group/role gating, then
replies with the current welcome text; never mutates any state (it is
given the store read-only in the source). -/
def view_welcome (s : Store) (ev : CmdEvent) : String :=
  if ev.group_id = "" then "此命令仅在群聊中可用"
  else if ev.role ≠ "admin" then "抱歉，你的权限不足"
  else "当前欢迎语:\n" ++ get_welcome s ev.group_id

/-- The invariant of the stored mapping claimed by the spec: keys are
unique and no stored welcome text is the empty string. -/
def StoreInv (d : List (String × String)) : Prop :=
  (d.map Prod.fst).Nodup ∧ ∀ p ∈ d, p.2 ≠ ""

/-- The backing file, in a run driven only by the store's own operations,
is either absent or holds a saved mapping satisfying `StoreInv`. -/
def FileInv (fs : FileState) : Prop :=
  fs = FileState.absent ∨
  ∃ d, StoreInv d ∧ fs = FileState.content (toJson d)

/-- States reachable through the store's operations, starting from the
fresh store (`self.group_welcomes = {}`, no backing file yet): loading,
saving (with either write outcome), and the set command (the view
command, `get_welcome` and the join handler never change state).  The
`load` step's side condition records that the assignment
`self.group_welcomes = json.load(f)` lands in the string-to-string
mapping type; it always holds in this closed system (`reachable_inv`'s
proof shows decoding never fails on reachable file states). -/
inductive Reach : Store × FileState → Prop where
  | init (dm : String) : Reach (⟨[], dm⟩, FileState.absent)
  | load {s : Store} {fs : FileState} {d : List (String × String)} :
      Reach (s, fs) → fromJson (_load_group_welcomes fs) = some d →
      Reach (⟨d, s.default_message⟩, fs)
  | save {s : Store} {fs : FileState} (writeOk : Bool) :
      Reach (s, fs) →
      Reach (s, _save_group_welcomes s.group_welcomes writeOk fs)
  | set {s : Store} {fs : FileState} (writeOk : Bool) (ev : CmdEvent)
      (msg : String) : Reach (s, fs) →
      Reach ((set_welcome s fs writeOk ev msg).1,
             (set_welcome s fs writeOk ev msg).2.1)

theorem map_fst_dictReplace (d : List (String × String)) (k v : String) :
    (d.map (fun p => if p.1 == k then (k, v) else p)).map Prod.fst =
      d.map Prod.fst := by
  induction d with
  | nil => rfl
  | cons p rest ih =>
    simp only [List.map_cons, ih]
    cases hb : p.1 == k <;> simp at hb <;> simp [hb]

theorem not_mem_of_dictMember_eq_false (d : List (String × String))
    (k : String) (h : dictMember d k = false) : k ∉ d.map Prod.fst := by
  induction d with
  | nil => simp
  | cons p rest ih =>
    simp only [dictMember, Bool.or_eq_false_iff] at h
    simp only [List.map_cons, List.mem_cons]
    rintro (h1 | h2)
    · simp [h1] at h
    · exact ih h.2 h2

theorem dictInsert_nodup (d : List (String × String)) (k v : String)
    (h : (d.map Prod.fst).Nodup) :
    ((dictInsert d k v).map Prod.fst).Nodup := by
  unfold dictInsert
  split
  · rw [map_fst_dictReplace]
    exact h
  · rename_i hm
    rw [List.map_append]
    rw [List.nodup_append]
    refine ⟨h, List.nodup_singleton k, ?_⟩
    intro a ha hb
    simp only [List.map_cons, List.map_nil, List.mem_singleton] at hb
    rw [hb] at ha
    exact not_mem_of_dictMember_eq_false d k (Bool.of_not_eq_true hm) ha

theorem dictInsert_values (d : List (String × String)) (k v : String)
    (hv : v ≠ "") (hd : ∀ p ∈ d, p.2 ≠ "") :
    ∀ p ∈ dictInsert d k v, p.2 ≠ "" := by
  unfold dictInsert
  split
  · intro p hp
    rcases List.mem_map.1 hp with ⟨q, hq, rfl⟩
    split
    · exact hv
    · exact hd q hq
  · intro p hp
    rcases List.mem_append.1 hp with h | h
    · exact hd p h
    · simp only [List.mem_singleton] at h
      subst h
      exact hv

theorem dictGet_replace (d : List (String × String)) (k v : String)
    (h : dictMember d k = true) :
    dictGet (d.map (fun p => if p.1 == k then (k, v) else p)) k = some v := by
  induction d with
  | nil => simp [dictMember] at h
  | cons p rest ih =>
    simp only [dictMember, Bool.or_eq_true] at h
    cases hb : p.1 == k
    · simp only [List.map_cons, dictGet, hb, if_neg]
      have hr : dictMember rest k = true := by
        rcases h with h | h
        · rw [hb] at h
          cases h
        · exact h
      simpa [hb] using ih hr
    · simp [List.map_cons, dictGet, hb]

theorem dictGet_append_self (d : List (String × String)) (k v : String)
    (h : dictMember d k = false) :
    dictGet (d ++ [(k, v)]) k = some v := by
  induction d with
  | nil => simp [dictGet]
  | cons p rest ih =>
    simp only [dictMember, Bool.or_eq_false_iff] at h
    simp only [List.cons_append, dictGet, h.1]
    simpa [h.1] using ih h.2

theorem dictGet_dictInsert (d : List (String × String)) (k v : String) :
    dictGet (dictInsert d k v) k = some v := by
  unfold dictInsert
  split
  · rename_i hm
    exact dictGet_replace d k v hm
  · rename_i hm
    exact dictGet_append_self d k v (Bool.of_not_eq_true hm)

theorem fromJsonEntries_toJson (d : List (String × String)) :
    fromJsonEntries (d.map (fun p => (p.1, PyJson.jstr p.2))) = some d := by
  induction d with
  | nil => rfl
  | cons p rest ih => simp [fromJsonEntries, ih]

theorem fromJson_toJson (d : List (String × String)) :
    fromJson (toJson d) = some d :=
  fromJsonEntries_toJson d

theorem pyStrip_ne_empty (m : String) (h : pyStrip m ≠ "") : m ≠ "" := by
  intro he
  subst he
  exact h rfl

/-- Internal induction: every reachable state satisfies both the mapping
invariant and the file invariant. -/
theorem reach_inv_full (st : Store × FileState) (h : Reach st) :
    StoreInv st.1.group_welcomes ∧ FileInv st.2 := by
  induction h with
  | init dm =>
    exact ⟨⟨List.nodup_nil, by simp⟩, Or.inl rfl⟩
  | load hr hd ih =>
    rename_i s fs d
    refine ⟨?_, ih.2⟩
    rcases ih.2 with hfs | ⟨d0, hinv, hfs⟩
    · subst hfs
      simp only [_load_group_welcomes, fromJson, fromJsonEntries] at hd
      cases hd
      exact ⟨List.nodup_nil, by simp⟩
    · subst hfs
      simp only [_load_group_welcomes] at hd
      rw [fromJson_toJson] at hd
      cases hd
      exact hinv
  | save writeOk hr ih =>
    rename_i s fs
    refine ⟨ih.1, ?_⟩
    unfold _save_group_welcomes
    split
    · exact Or.inr ⟨s.group_welcomes, ih.1, rfl⟩
    · exact ih.2
  | set writeOk ev msg hr ih =>
    rename_i s fs
    unfold set_welcome
    split
    · exact ih
    · split
      · exact ih
      · split
        · exact ih
        · rename_i hg hr2 hm
          constructor
          · exact ⟨dictInsert_nodup _ _ _ ih.1.1,
              dictInsert_values _ _ _ (pyStrip_ne_empty _ hm) ih.1.2⟩
          · unfold _save_group_welcomes
            split
            · exact Or.inr ⟨_,
                ⟨dictInsert_nodup _ _ _ ih.1.1,
                 dictInsert_values _ _ _ (pyStrip_ne_empty _ hm) ih.1.2⟩, rfl⟩
            · exact ih.2

/-- C1: for every group id and every text whose stripped form is
non-blank, once `set_welcome` passes its gating (group context, admin
role) and succeeds, `get_welcome` on that group returns exactly the raw,
untrimmed text; the stored entry and the confirmation echo it verbatim. -/
theorem set_welcome_then_get_raw (s : Store) (fs : FileState)
    (writeOk : Bool) (ev : CmdEvent) (message : String)
    (hg : ev.group_id ≠ "") (hr : ev.role = "admin")
    (hm : pyStrip message ≠ "") :
    get_welcome (set_welcome s fs writeOk ev message).1 ev.group_id =
      message := by
  simp only [set_welcome, if_neg hg, hr, ne_eq, not_true_eq_false,
    if_false, if_neg hm]
  simp [get_welcome, dictGet_dictInsert]

/-- Witness for C1: setting text `"  Hi  "` (whitespace kept) for group
`"100"` and reading it back returns the raw text. -/
theorem set_welcome_then_get_raw_witness :
    get_welcome (set_welcome ⟨[], "欢迎新人~"⟩ FileState.absent true
      ⟨"100", "admin"⟩ "  Hi  ").1 "100" = "  Hi  " :=
  set_welcome_then_get_raw ⟨[], "欢迎新人~"⟩ FileState.absent true
    ⟨"100", "admin"⟩ "  Hi  " (by decide) rfl (by decide)

/-- C2: every inbound event matching the join shape (notice of subtype
group_increase, non-empty group id, well-formed non-zero user id) makes
the handler yield exactly one reply: a mention of the joining member,
then a single space, then `get_welcome` of the group; no state changes. -/
theorem handler_join_emits_reply (s : Store) (fs : FileState)
    (m : RawMessage) (n : Int)
    (hp : m.post_type = some "notice")
    (hn : m.notice_type = some "group_increase")
    (hg : m.group_id.getD "" ≠ "")
    (hu : m.user_id = UserIdField.val n) (h0 : n ≠ 0) :
    handle_group_increase s fs (some m) =
      (s, fs, some [Comp.At n,
        Comp.Plain (" " ++ get_welcome s (m.group_id.getD ""))]) := by
  simp only [handle_group_increase, hp, hn, hu, and_self, if_true]
  simp [hg, h0]

/-- Witness for C2: the spec's scenario — empty mapping, default
`"Welcome!"`, join event for group `"100"` and user `12345` yields the
mention of `12345` followed by `" Welcome!"`. -/
theorem handler_join_emits_reply_witness :
    handle_group_increase ⟨[], "Welcome!"⟩ FileState.absent
      (some ⟨some "notice", some "group_increase", some "100",
        UserIdField.val 12345⟩) =
    (⟨[], "Welcome!"⟩, FileState.absent,
      some [Comp.At 12345, Comp.Plain " Welcome!"]) :=
  handler_join_emits_reply ⟨[], "Welcome!"⟩ FileState.absent
    ⟨some "notice", some "group_increase", some "100",
      UserIdField.val 12345⟩ 12345 rfl rfl (by decide) rfl (by decide)

/-- C3: for every group id (in an admin group context, where the store
operation is reachable) and every text that strips to empty, the set
command reports the validation error `"欢迎语不能为空"` and returns the
store and file unchanged; the function is total, so nothing crashes. -/
theorem set_welcome_blank_rejected (s : Store) (fs : FileState)
    (writeOk : Bool) (ev : CmdEvent) (message : String)
    (hg : ev.group_id ≠ "") (hr : ev.role = "admin")
    (hm : pyStrip message = "") :
    set_welcome s fs writeOk ev message = (s, fs, "欢迎语不能为空") := by
  simp [set_welcome, hg, hr, hm]

/-- Witness for C3: `""`, `"   "` and the non-ASCII blanks
`"\x0b"` (vertical tab) and `"　"` (ideographic space) are all
rejected with the mapping untouched. -/
theorem set_welcome_blank_rejected_witness :
    set_welcome ⟨[("1", "x")], "d"⟩ FileState.absent true
      ⟨"1", "admin"⟩ "" =
      (⟨[("1", "x")], "d"⟩, FileState.absent, "欢迎语不能为空") ∧
    set_welcome ⟨[("1", "x")], "d"⟩ FileState.absent true
      ⟨"1", "admin"⟩ "   " =
      (⟨[("1", "x")], "d"⟩, FileState.absent, "欢迎语不能为空") ∧
    set_welcome ⟨[("1", "x")], "d"⟩ FileState.absent true
      ⟨"1", "admin"⟩ "\x0b" =
      (⟨[("1", "x")], "d"⟩, FileState.absent, "欢迎语不能为空") ∧
    set_welcome ⟨[("1", "x")], "d"⟩ FileState.absent true
      ⟨"1", "admin"⟩ "　" =
      (⟨[("1", "x")], "d"⟩, FileState.absent, "欢迎语不能为空") :=
  ⟨set_welcome_blank_rejected ⟨[("1", "x")], "d"⟩ FileState.absent true
      ⟨"1", "admin"⟩ "" (by decide) rfl (by decide),
   set_welcome_blank_rejected ⟨[("1", "x")], "d"⟩ FileState.absent true
      ⟨"1", "admin"⟩ "   " (by decide) rfl (by decide),
   set_welcome_blank_rejected ⟨[("1", "x")], "d"⟩ FileState.absent true
      ⟨"1", "admin"⟩ "\x0b" (by decide) rfl (by decide),
   set_welcome_blank_rejected ⟨[("1", "x")], "d"⟩ FileState.absent true
      ⟨"1", "admin"⟩ "　" (by decide) rfl (by decide)⟩

/-- C4: saving the in-memory mapping and loading it back is lossless:
the loaded JSON is exactly the serialized mapping, and decoding it as a
string-to-string mapping recovers the original entries. -/
theorem save_load_roundtrip (d : List (String × String)) (fs : FileState) :
    _load_group_welcomes (_save_group_welcomes d true fs) = toJson d ∧
    fromJson (toJson d) = some d :=
  ⟨rfl, fromJson_toJson d⟩

/-- Counterexample for C5: the file `[]` (a JSON array) exists and cannot
be parsed as a string-to-string mapping (`fromJson` fails on it), yet
`_load_group_welcomes` does not reset the mapping to empty: `json.load`
succeeds and the array is assigned to `self.group_welcomes` as-is. -/
theorem load_nonmapping_not_reset :
    fromJson (PyJson.jarr []) = none ∧
    _load_group_welcomes (FileState.content (PyJson.jarr [])) ≠
      PyJson.jobj [] :=
  ⟨rfl, fun h => PyJson.noConfusion h⟩

/-- C5 (amended): load never raises (it is total); an absent file and a
file whose read or JSON parse raises both leave the mapping empty; but a
file holding any valid JSON — a string-to-string mapping or not — is
assigned to the in-memory mapping verbatim. -/
theorem load_never_raises :
    _load_group_welcomes FileState.absent = PyJson.jobj [] ∧
    _load_group_welcomes FileState.unreadable = PyJson.jobj [] ∧
    ∀ j, _load_group_welcomes (FileState.content j) = j :=
  ⟨rfl, rfl, fun _ => rfl⟩

/-- C6: both commands reject an invocation without a group id with the
"not in a group chat" reply — regardless of role, so the group check
precedes the permission check — and reject a non-admin in a group with
the "insufficient permission" reply; in both cases the set command
returns the store and file unchanged (the view command never touches
them). -/
theorem commands_gate_group_then_admin (s : Store) (fs : FileState)
    (writeOk : Bool) (ev : CmdEvent) (message : String) :
    (ev.group_id = "" →
      set_welcome s fs writeOk ev message =
        (s, fs, "此命令仅在群聊中可用") ∧
      view_welcome s ev = "此命令仅在群聊中可用") ∧
    (ev.group_id ≠ "" → ev.role ≠ "admin" →
      set_welcome s fs writeOk ev message = (s, fs, "抱歉，你的权限不足") ∧
      view_welcome s ev = "抱歉，你的权限不足") := by
  constructor
  · intro h
    exact ⟨by simp [set_welcome, h], by simp [view_welcome, h]⟩
  · intro h1 h2
    exact ⟨by simp [set_welcome, h1, h2], by simp [view_welcome, h1, h2]⟩

/-- Witness for C6: a no-group invocation by a non-admin gets the group
message (precedence), and an in-group non-admin gets the permission
message; the mapping is unchanged in both. -/
theorem commands_gate_group_then_admin_witness :
    (set_welcome ⟨[("1", "x")], "d"⟩ FileState.absent true
        ⟨"", "member"⟩ "Hi" =
        (⟨[("1", "x")], "d"⟩, FileState.absent, "此命令仅在群聊中可用") ∧
      view_welcome ⟨[("1", "x")], "d"⟩ ⟨"", "member"⟩ =
        "此命令仅在群聊中可用") ∧
    (set_welcome ⟨[("1", "x")], "d"⟩ FileState.absent true
        ⟨"100", "member"⟩ "Hi" =
        (⟨[("1", "x")], "d"⟩, FileState.absent, "抱歉，你的权限不足") ∧
      view_welcome ⟨[("1", "x")], "d"⟩ ⟨"100", "member"⟩ =
        "抱歉，你的权限不足") :=
  ⟨(commands_gate_group_then_admin ⟨[("1", "x")], "d"⟩ FileState.absent
      true ⟨"", "member"⟩ "Hi").1 rfl,
   (commands_gate_group_then_admin ⟨[("1", "x")], "d"⟩ FileState.absent
      true ⟨"100", "member"⟩ "Hi").2 (by decide) (by decide)⟩

/-- C7: every inbound event that does not match the join shape — wrong
or missing post type or notice type, empty or missing group id, missing,
malformed or zero user id, or a missing/non-dict payload — produces no
output, and the store and the backing file are returned unchanged. -/
theorem handler_nonjoin_silent (s : Store) (fs : FileState)
    (msg : Option RawMessage) (h : joinShape msg = false) :
    handle_group_increase s fs msg = (s, fs, none) := by
  cases msg with
  | none => rfl
  | some m =>
    simp only [joinShape, Bool.and_eq_false_iff] at h
    simp only [handle_group_increase]
    split
    · rename_i hc
      cases hu : m.user_id with
      | malformed => rfl
      | absent => rfl
      | val n =>
        have hcond : m.group_id.getD "" = "" ∨ n = 0 := by
          rcases h with ((h | h) | h) | h
          · simp [beq_iff_eq, hc.1] at h
          · simp [beq_iff_eq, hc.2] at h
          · left
            simpa using h
          · right
            rw [hu] at h
            simpa using h
        simp only [if_pos hcond]
    · rfl

/-- Witness for C7: a group_increase notice with user id `0` is ignored
and all state is unchanged. -/
theorem handler_nonjoin_silent_witness :
    handle_group_increase ⟨[("100", "Hi")], "d"⟩ FileState.absent
      (some ⟨some "notice", some "group_increase", some "100",
        UserIdField.val 0⟩) =
    (⟨[("100", "Hi")], "d"⟩, FileState.absent, none) :=
  handler_nonjoin_silent ⟨[("100", "Hi")], "d"⟩ FileState.absent
    (some ⟨some "notice", some "group_increase", some "100",
      UserIdField.val 0⟩) (by decide)

/-- C8: every state reachable through the store's operations (fresh
start, load, save, set command) has a mapping with unique keys — hence
at most one entry per group id — and no empty-string welcome text; the
mapping may be empty (the initial state's is). -/
theorem reachable_mapping_invariant (st : Store × FileState)
    (h : Reach st) : StoreInv st.1.group_welcomes :=
  (reach_inv_full st h).1

/-- Witness for C8: the state after a successful set command on a fresh
store satisfies the invariant. -/
theorem reachable_mapping_invariant_witness :
    StoreInv ((set_welcome ⟨[], "欢迎新人~"⟩ FileState.absent true
      ⟨"100", "admin"⟩ "Hi").1.group_welcomes) :=
  reachable_mapping_invariant _
    (Reach.set true ⟨"100", "admin"⟩ "Hi" (Reach.init "欢迎新人~"))

/-- C9: `get_welcome` never fails (it is a total function), and for every
group id with no entry in the mapping it returns the default text. -/
theorem get_welcome_default (s : Store) (group_id : String)
    (h : dictGet s.group_welcomes group_id = none) :
    get_welcome s group_id = s.default_message := by
  simp [get_welcome, h]

/-- Witness for C9: a group never set falls back to the default. -/
theorem get_welcome_default_witness :
    get_welcome ⟨[("1", "x")], "欢迎新人~"⟩ "2" = "欢迎新人~" :=
  get_welcome_default ⟨[("1", "x")], "欢迎新人~"⟩ "2" (by decide)

/-- C10: a valid set command (group context, admin, non-blank text)
whose synchronous file write fails still updates the in-memory mapping,
leaves the file as it was, and emits the success confirmation echoing
the stored text — the same store and reply as when the write succeeds. -/
theorem set_welcome_write_failure_swallowed (s : Store) (fs : FileState)
    (ev : CmdEvent) (message : String)
    (hg : ev.group_id ≠ "") (hr : ev.role = "admin")
    (hm : pyStrip message ≠ "") :
    set_welcome s fs false ev message =
      (⟨dictInsert s.group_welcomes ev.group_id message,
        s.default_message⟩, fs, "已设置本群欢迎语:\n" ++ message) ∧
    (set_welcome s fs false ev message).1 =
      (set_welcome s fs true ev message).1 ∧
    (set_welcome s fs false ev message).2.2 =
      (set_welcome s fs true ev message).2.2 := by
  refine ⟨?_, ?_, ?_⟩ <;> simp [set_welcome, hg, hr, hm,
    _save_group_welcomes]

/-- Witness for C10: with the write failing, the mapping gains the entry,
the file stays absent, and the success reply is emitted. -/
theorem set_welcome_write_failure_swallowed_witness :
    set_welcome ⟨[], "d"⟩ FileState.absent false ⟨"100", "admin"⟩ "Hi" =
      (⟨[("100", "Hi")], "d"⟩, FileState.absent,
        "已设置本群欢迎语:\nHi") ∧
    (set_welcome ⟨[], "d"⟩ FileState.absent false
        ⟨"100", "admin"⟩ "Hi").1 =
      (set_welcome ⟨[], "d"⟩ FileState.absent true
        ⟨"100", "admin"⟩ "Hi").1 ∧
    (set_welcome ⟨[], "d"⟩ FileState.absent false
        ⟨"100", "admin"⟩ "Hi").2.2 =
      (set_welcome ⟨[], "d"⟩ FileState.absent true
        ⟨"100", "admin"⟩ "Hi").2.2 :=
  set_welcome_write_failure_swallowed ⟨[], "d"⟩ FileState.absent
    ⟨"100", "admin"⟩ "Hi" (by decide) rfl (by decide)

